import Mathlib

/-!
Verification development for the XDCCarr repository: a Torznab-compatible
XDCC indexer with a React dashboard.  The frontend (src/frontend) is embedded
directly from the TypeScript source.  The backend core (source search client,
pack catalog normalizer, download queue / job state machine, IRC session and
DCC transfer) is not present in the repository sources; those components are
modelled from the specification, as marked on each definition.
-/

namespace XDCCarr

/-! ## Frontend embedding (src/frontend/src/pages/Search.tsx) -/

/-- The `SearchResult` interface of Search.tsx: one row of the search table. -/
structure SearchResult where
  id : String
  title : String
  size : Nat
  network : String
  channel : String
  bot : String
  pack : String
  category : Nat
deriving DecidableEq

/-- The `CATEGORY_NAMES` record of Search.tsx: numeric Torznab category code
to display name. -/
def CATEGORY_NAMES : List (Nat × String) :=
  [(2000, "Movies"), (2040, "Movies/HD"), (2045, "Movies/UHD"),
   (3000, "Audio"), (3010, "Audio/MP3"), (3040, "Audio/Lossless"),
   (5000, "TV"), (5040, "TV/HD"), (5070, "TV/Anime"),
   (6000, "XXX"), (6040, "XXX/x264"), (8000, "Games")]

/-- The category table cell of Search.tsx, `CATEGORY_NAMES[r.category] || r.category`:
a known code shows its name, an unknown code falls back to the numeric code
itself; the row is rendered either way. -/
def categoryCell (c : Nat) : String :=
  match CATEGORY_NAMES.lookup c with
  | some name => name
  | none => toString c

/-- Unit suffix chosen by `formatSize` in Search.tsx. -/
inductive SizeUnit
  | GB
  | MB
  | KB
deriving DecidableEq

/-- The suffix string appended by `formatSize`. -/
def SizeUnit.render : SizeUnit → String
  | .GB => " GB"
  | .MB => " MB"
  | .KB => " KB"

/-- Result of `formatSize`: the quotient that `toFixed(2)` renders with two
decimals, kept as an exact rational, together with the unit suffix. -/
structure FormattedSize where
  value : Rat
  unit : SizeUnit
deriving DecidableEq

/-- `formatSize` of Search.tsx: bytes at or above 2^30 as GB, at or above 2^20
as MB, and everything below 2^20 (including counts below 1024 and zero) as KB.
The two-decimal string rendering of the quotient is abstracted as the exact
rational value. -/
def formatSize (bytes : Nat) : FormattedSize :=
  if bytes ≥ 1073741824 then ⟨(bytes : Rat) / 1073741824, .GB⟩
  else if bytes ≥ 1048576 then ⟨(bytes : Rat) / 1048576, .MB⟩
  else ⟨(bytes : Rat) / 1024, .KB⟩

/-- The `enabled: !!searchTerm` option of the search query in Search.tsx:
the query runs only for a non-empty submitted term. -/
def searchEnabled (searchTerm : String) : Bool :=
  searchTerm != ""

/-- Outcome of one evaluation of the query function of Search.tsx:
whether the HTTP request to /api/search was issued, and the results list. -/
structure QueryOutcome where
  requested : Bool
  results : List SearchResult
deriving DecidableEq

/-- The `queryFn` of Search.tsx: an empty submitted term short-circuits to the
empty list without issuing the request; otherwise the /api/search response
(abstracted as `fetchResults`) is returned. -/
def searchQueryFn (fetchResults : String → List SearchResult)
    (searchTerm : String) : QueryOutcome :=
  if searchTerm = "" then ⟨false, []⟩
  else ⟨true, fetchResults searchTerm⟩

/-! ## Search layer (modelled from the spec; the backend core is not in the
repository sources) -/

/-- Modelled from the spec: the canonical `CategoryCode` enumeration of the
Pack data model, with the generic Other category that unknown raw codes map
to.  The named categories follow the Torznab codes of the frontend table. -/
inductive CategoryCode
  | Movies
  | MoviesHD
  | MoviesUHD
  | Audio
  | AudioMP3
  | AudioLossless
  | TV
  | TVHD
  | TVAnime
  | XXX
  | XXXx264
  | Games
  | Other
deriving DecidableEq

/-- Modelled from the spec: the search-layer error taxonomy
(SourceUnavailable, SourceTimeout, MalformedListing). -/
inductive SearchError
  | SourceUnavailable
  | SourceTimeout
  | MalformedListing
deriving DecidableEq

/-- Modelled from the spec: one raw listing returned by a source search
client, with the source-specific category code still unmapped. -/
structure RawListing where
  title : String
  network : String
  channel : String
  bot : String
  packNumber : Nat
  sizeBytes : Nat
  categoryCode : String
deriving DecidableEq

/-- Modelled from the spec: the canonical Pack record produced by the
normalizer. -/
structure Pack where
  id : String
  title : String
  sizeBytes : Nat
  network : String
  channel : String
  bot : String
  packNumber : Nat
  category : CategoryCode
  sourceName : String
deriving DecidableEq

/-- Modelled from the spec: one search-source configuration of the Source
Registry. -/
structure SourceConfig where
  name : String
  enabled : Bool
  priority : Nat
  timeoutSeconds : Nat
deriving DecidableEq

/-- Modelled from the spec: the table-driven category mapping of the
normalizer, raw-source-specific code to canonical CategoryCode, with a
representative table of raw codes. -/
def categoryTable : List (String × CategoryCode) :=
  [("movie", .Movies), ("movie-hd", .MoviesHD), ("tv", .TV), ("tv-hd", .TVHD),
   ("anime", .TVAnime), ("audio", .Audio), ("mp3", .AudioMP3),
   ("flac", .AudioLossless), ("xxx", .XXX), ("game", .Games)]

/-- Modelled from the spec: category mapping; a raw code absent from the
table maps to the generic Other category rather than failing the listing. -/
def mapCategory (rawCode : String) : CategoryCode :=
  (categoryTable.lookup rawCode).getD .Other

/-- Modelled from the spec: the stable, deterministic Pack id.  Per the Pack
invariant and the dedup requirement of the normalizer, it is a function of
the (network, channel, bot, packNumber) tuple only, independent of the
source; the hash is modelled as an injective string encoding of the tuple. -/
def packId (network channel bot : String) (packNumber : Nat) : String :=
  network ++ "/" ++ channel ++ "/" ++ bot ++ "/" ++ toString packNumber

/-- Modelled from the spec: `normalize(rawListing, sourceName) -> Pack` or
MalformedListing.  A listing lacking the fields that identify the offer
(empty bot or network) is malformed; otherwise a Pack is always produced,
with the category mapped through the table. -/
def normalize (raw : RawListing) (sourceName : String) :
    Except SearchError Pack :=
  if raw.bot = "" ∨ raw.network = "" then .error .MalformedListing
  else .ok
    { id := packId raw.network raw.channel raw.bot raw.packNumber
      title := raw.title
      sizeBytes := raw.sizeBytes
      network := raw.network
      channel := raw.channel
      bot := raw.bot
      packNumber := raw.packNumber
      category := mapCategory raw.categoryCode
      sourceName := sourceName }

/-- Modelled from the spec: dedup by Pack id, keeping the first occurrence of
each id; the input list is in source-priority order, so the kept entry is the
one from the highest-priority source.  Helper carrying the ids already
seen. -/
def dedupByIdGo (seen : List String) : List Pack → List Pack
  | [] => []
  | p :: rest =>
    if p.id ∈ seen then dedupByIdGo seen rest
    else p :: dedupByIdGo (p.id :: seen) rest

/-- Modelled from the spec: deduplication of a merged search response by Pack
id. -/
def dedupById (packs : List Pack) : List Pack :=
  dedupByIdGo [] packs

/-- Modelled from the spec: the aggregate search response — listings from the
healthy sources tagged with their source name, and the per-source errors
recorded for Stats. -/
structure SearchResponse where
  results : List (String × RawListing)
  errors : List (String × SearchError)
deriving DecidableEq

/-- Modelled from the spec: the fan-out over a list of sources.  Each source
responds (abstracting its network call and timeout) with either listings or a
search-layer error; an error is recorded and never aborts the remaining
sources.  Concurrency is abstracted: each source contributes independently of
the others. -/
def fanoutGo (respond : String → Except SearchError (List RawListing)) :
    List SourceConfig → SearchResponse
  | [] => ⟨[], []⟩
  | s :: rest =>
    let acc := fanoutGo respond rest
    match respond s.name with
    | .ok listings => ⟨listings.map (fun l => (s.name, l)) ++ acc.results, acc.errors⟩
    | .error e => ⟨acc.results, (s.name, e) :: acc.errors⟩

/-- Modelled from the spec: the search fan-out over the enabled sources.  The
result type is total — a source failure is data in `errors`, never a failure
of the overall search. -/
def fanout (sources : List SourceConfig)
    (respond : String → Except SearchError (List RawListing)) : SearchResponse :=
  fanoutGo respond (sources.filter (fun s => s.enabled))

/-! ## Theorems for the frontend claims -/

/-- C9: for every non-negative byte count n, formatSize returns n divided by
2^30 with suffix GB when n is at least 1073741824, n divided by 2^20 with
suffix MB when n is between 1048576 and 1073741824, and n divided by 2^10 with
suffix KB for every n below 1048576 — in particular counts below 1024,
including 0, are rendered as possibly fractional kilobytes, never as plain
bytes. -/
theorem formatSize_units (n : Nat) :
    (1073741824 ≤ n →
      formatSize n = ⟨(n : Rat) / 1073741824, .GB⟩ ∧ (formatSize n).unit.render = " GB") ∧
    (1048576 ≤ n → n < 1073741824 →
      formatSize n = ⟨(n : Rat) / 1048576, .MB⟩ ∧ (formatSize n).unit.render = " MB") ∧
    (n < 1048576 →
      formatSize n = ⟨(n : Rat) / 1024, .KB⟩ ∧ (formatSize n).unit.render = " KB") := by
  refine ⟨?_, ?_, ?_⟩
  · intro h
    have hge : n ≥ 1073741824 := h
    simp [formatSize, hge, SizeUnit.render]
  · intro h1 h2
    have hlt : ¬ n ≥ 1073741824 := by omega
    have hge : n ≥ 1048576 := h1
    simp [formatSize, hlt, hge, SizeUnit.render]
  · intro h
    have h1 : ¬ n ≥ 1073741824 := by omega
    have h2 : ¬ n ≥ 1048576 := by omega
    simp [formatSize, h1, h2, SizeUnit.render]

/-- Witness for C9: formatSize applied at 500 and 0 renders fractional
kilobytes. -/
theorem formatSize_units_app :
    (formatSize 500 = ⟨(500 : Rat) / 1024, .KB⟩ ∧ (formatSize 500).unit.render = " KB") ∧
    (formatSize 0 = ⟨(0 : Rat) / 1024, .KB⟩ ∧ (formatSize 0).unit.render = " KB") :=
  ⟨(formatSize_units 500).2.2 (by decide), (formatSize_units 0).2.2 (by decide)⟩

/-- C10: submitting an empty search term never issues a request to /api/search
and always yields an empty result list; the query is disabled until a
non-empty term is submitted. -/
theorem empty_search_no_request (fetchResults : String → List SearchResult)
    (t : String) :
    (searchQueryFn fetchResults "").requested = false ∧
    (searchQueryFn fetchResults "").results = [] ∧
    (searchEnabled t = true ↔ t ≠ "") := by
  refine ⟨rfl, rfl, ?_⟩
  simp [searchEnabled]

/-- Witness for C10: the empty term issues no request and yields no results,
and a concrete non-empty term enables the query. -/
theorem empty_search_no_request_app :
    (searchQueryFn (fun _ => []) "").requested = false ∧
    (searchQueryFn (fun _ => []) "").results = [] ∧
    (searchEnabled "ubuntu" = true ↔ "ubuntu" ≠ "") :=
  empty_search_no_request (fun _ => []) "ubuntu"

/-! ## Theorems for the search-layer claims -/

/-- A successfully normalized Pack carries the id computed from the listing's
(network, channel, bot, packNumber) tuple. -/
theorem normalize_ok_id (r : RawListing) (s : String) (p : Pack)
    (h : normalize r s = .ok p) :
    p.id = packId r.network r.channel r.bot r.packNumber := by
  unfold normalize at h
  split at h
  · simp at h
  · injection h with h
    subst h
    rfl

/-- C1: for every raw listing from every configured source, normalize
produces a Pack whose id depends only on the tuple
(network, channel, bot, packNumber) — two listings of the same offer from
different sources always receive the same id, so a merged response
deduplicates them to one entry. -/
theorem normalize_id_source_invariant (r1 r2 : RawListing) (s1 s2 : String)
    (p1 p2 : Pack)
    (hn : r1.network = r2.network) (hc : r1.channel = r2.channel)
    (hb : r1.bot = r2.bot) (hp : r1.packNumber = r2.packNumber)
    (h1 : normalize r1 s1 = .ok p1) (h2 : normalize r2 s2 = .ok p2) :
    p1.id = p2.id ∧
    p1.id = packId r1.network r1.channel r1.bot r1.packNumber ∧
    (dedupById [p1, p2]).length = 1 := by
  have e1 := normalize_ok_id r1 s1 p1 h1
  have e2 := normalize_ok_id r2 s2 p2 h2
  have hid : p1.id = p2.id := by rw [e1, e2, hn, hc, hb, hp]
  refine ⟨hid, e1, ?_⟩
  simp [dedupById, dedupByIdGo, hid]

/-- A sample raw listing as reported by a first source. -/
def rawA : RawListing :=
  { title := "Example Movie 2024"
    network := "irc.example.net"
    channel := "#movies"
    bot := "XDCCBot1"
    packNumber := 42
    sizeBytes := 1500000000
    categoryCode := "movie" }

/-- The same offer as reported by a second source with a different display
title. -/
def rawB : RawListing :=
  { rawA with title := "example.movie.2024.1080p" }

/-- The Pack that normalize yields for rawA from the first source. -/
def packA : Pack :=
  { id := packId rawA.network rawA.channel rawA.bot rawA.packNumber
    title := rawA.title
    sizeBytes := rawA.sizeBytes
    network := rawA.network
    channel := rawA.channel
    bot := rawA.bot
    packNumber := rawA.packNumber
    category := mapCategory rawA.categoryCode
    sourceName := "xdcc.eu" }

/-- The Pack that normalize yields for rawB from the second source. -/
def packB : Pack :=
  { id := packId rawB.network rawB.channel rawB.bot rawB.packNumber
    title := rawB.title
    sizeBytes := rawB.sizeBytes
    network := rawB.network
    channel := rawB.channel
    bot := rawB.bot
    packNumber := rawB.packNumber
    category := mapCategory rawB.categoryCode
    sourceName := "sunxdcc" }

/-- Witness for C1: the same offer listed by two sources with different
titles receives one id and one merged entry. -/
theorem normalize_id_source_invariant_app :
    packA.id = packB.id ∧
    packA.id = packId rawA.network rawA.channel rawA.bot rawA.packNumber ∧
    (dedupById [packA, packB]).length = 1 :=
  normalize_id_source_invariant rawA rawB "xdcc.eu" "sunxdcc" packA packB
    rfl rfl rfl rfl rfl rfl

/-- C8: for every raw listing whose source-specific category code is absent
from the category mapping table, normalization maps the listing to the
generic Other category and still produces a Pack; an unknown category code
never causes the listing to fail or be dropped.  In the frontend, a code
absent from CATEGORY_NAMES is still rendered, falling back to the numeric
code. -/
theorem unknown_category_maps_to_other (raw : RawListing) (s : String)
    (hbot : raw.bot ≠ "") (hnet : raw.network ≠ "")
    (hunk : categoryTable.lookup raw.categoryCode = none) :
    (∃ p, normalize raw s = .ok p ∧ p.category = .Other) ∧
    (∀ c : Nat, CATEGORY_NAMES.lookup c = none → categoryCell c = toString c) := by
  constructor
  · have hcond : ¬ (raw.bot = "" ∨ raw.network = "") := by simp [hbot, hnet]
    refine ⟨{ id := packId raw.network raw.channel raw.bot raw.packNumber
              title := raw.title
              sizeBytes := raw.sizeBytes
              network := raw.network
              channel := raw.channel
              bot := raw.bot
              packNumber := raw.packNumber
              category := mapCategory raw.categoryCode
              sourceName := s }, ?_, ?_⟩
    · unfold normalize
      rw [if_neg hcond]
    · simp [mapCategory, hunk]
  · intro c h
    simp [categoryCell, h]

/-- A raw listing whose category code is absent from the mapping table. -/
def rawUnknown : RawListing :=
  { rawA with categoryCode := "weird-code" }

/-- Witness for C8: the unmapped code listing still normalizes, to the Other
category, and a concrete unknown frontend code is rendered as its number. -/
theorem unknown_category_maps_to_other_app :
    (∃ p, normalize rawUnknown "xdcc.eu" = .ok p ∧ p.category = .Other) ∧
    (∀ c : Nat, CATEGORY_NAMES.lookup c = none → categoryCell c = toString c) :=
  unknown_category_maps_to_other rawUnknown "xdcc.eu" (by decide) (by decide) rfl

/-- Every enabled processed source contributes to the fan-out response: its
listings all appear in the results when it responds, and its error is
recorded when it fails. -/
theorem fanoutGo_mem (respond : String → Except SearchError (List RawListing))
    (l : List SourceConfig) (s : SourceConfig) (hs : s ∈ l) :
    (∀ listings, respond s.name = .ok listings →
      ∀ r ∈ listings, (s.name, r) ∈ (fanoutGo respond l).results) ∧
    (∀ e, respond s.name = .error e →
      (s.name, e) ∈ (fanoutGo respond l).errors) := by
  induction l with
  | nil => cases hs
  | cons a rest ih =>
    rcases List.mem_cons.mp hs with heq | hmem
    · subst heq
      constructor
      · intro listings hok r hr
        simp only [fanoutGo, hok, List.mem_append, List.mem_map]
        exact Or.inl ⟨r, hr, rfl⟩
      · intro e herr
        simp [fanoutGo, herr]
    · have ihm := ih hmem
      constructor
      · intro listings hok r hr
        cases hresp : respond a.name with
        | ok ls => simpa [fanoutGo, hresp] using Or.inr (ihm.1 listings hok r hr)
        | error e => simpa [fanoutGo, hresp] using ihm.1 listings hok r hr
      · intro e herr
        cases hresp : respond a.name with
        | ok ls => simpa [fanoutGo, hresp] using ihm.2 e herr
        | error e2 => simpa [fanoutGo, hresp] using Or.inr (ihm.2 e herr)

/-- C6: for every search fan-out over the enabled sources, the failure or
timeout of any individual source never causes the overall search to fail:
the response is total, every healthy enabled source's listings are returned,
and a failing enabled source's error is recorded for Stats rather than
propagated. -/
theorem fanout_partial_results (sources : List SourceConfig)
    (respond : String → Except SearchError (List RawListing))
    (s : SourceConfig) (hs : s ∈ sources) (he : s.enabled = true) :
    (∀ listings, respond s.name = .ok listings →
      ∀ r ∈ listings, (s.name, r) ∈ (fanout sources respond).results) ∧
    (∀ e, respond s.name = .error e →
      (s.name, e) ∈ (fanout sources respond).errors) := by
  have hmem : s ∈ sources.filter (fun s => s.enabled) :=
    List.mem_filter.mpr ⟨hs, by simp [he]⟩
  exact fanoutGo_mem respond _ s hmem

/-- A first enabled source configuration. -/
def srcA : SourceConfig :=
  { name := "xdcc.eu", enabled := true, priority := 1, timeoutSeconds := 10 }

/-- A second enabled source configuration, which will time out. -/
def srcB : SourceConfig :=
  { name := "sunxdcc", enabled := true, priority := 2, timeoutSeconds := 10 }

/-- A response function where the first source answers and the second times
out. -/
def sampleRespond : String → Except SearchError (List RawListing) :=
  fun n => if n = "xdcc.eu" then .ok [rawA] else .error .SourceTimeout

/-- Witness for C6: with the second source timing out, the first source's
listing is still in the fan-out results and the timeout is recorded. -/
theorem fanout_partial_results_app :
    (∀ listings, sampleRespond srcA.name = .ok listings →
      ∀ r ∈ listings, (srcA.name, r) ∈ (fanout [srcA, srcB] sampleRespond).results) ∧
    (∀ e, sampleRespond srcA.name = .error e →
      (srcA.name, e) ∈ (fanout [srcA, srcB] sampleRespond).errors) :=
  fanout_partial_results [srcA, srcB] sampleRespond srcA
    (List.mem_cons_self srcA [srcB]) rfl

/-! ## Download queue / job state machine (modelled from the spec; the
backend core is not in the repository sources) -/

/-- Modelled from the spec: the IRC-, DCC- and queue-layer error taxonomy. -/
inductive QueueError
  | ConnectError
  | SendError
  | OfferTimeout
  | TransferStalled
  | SizeMismatch
  | DiskWriteError
  | RetryBudgetExhausted
deriving DecidableEq

/-- Modelled from the spec: the states of the download job state machine. -/
inductive JobState
  | Queued
  | Connecting
  | AwaitingOffer
  | Transferring
  | Completed
  | Failed
  | Abandoned
deriving DecidableEq

/-- The spec's names for the job states. -/
def JobState.name : JobState → String
  | .Queued => "Queued"
  | .Connecting => "Connecting"
  | .AwaitingOffer => "AwaitingOffer"
  | .Transferring => "Transferring"
  | .Completed => "Completed"
  | .Failed => "Failed"
  | .Abandoned => "Abandoned"

/-- The state names of the spec's state machine. -/
def jobStateNames : List String :=
  ["Queued", "Connecting", "AwaitingOffer", "Transferring", "Completed",
   "Failed", "Abandoned"]

/-- The union of the `status` field of the `Download` interface consumed by
the Activity page (src/frontend/src/pages/Search.tsx, appended Activity
source): the set of job states actually visible to the polling consumer. -/
def downloadStatusNames : List String :=
  ["downloading", "queued", "completed", "failed"]

/-- Modelled from the spec: one DownloadJob, a grab in flight or completed.
The derived speed and ETA fields are functions of the byte counters and
elapsed time and carry no independent state. -/
structure DownloadJob where
  jobId : Nat
  pack : Pack
  state : JobState
  bytesReceived : Nat
  bytesTotal : Nat
  attempt : Nat
  lastError : Option QueueError
deriving DecidableEq

/-- Modelled from the spec: the download queue owning the jobs, with the
next fresh job identifier. -/
structure QueueState where
  jobs : List DownloadJob
  nextJobId : Nat
deriving DecidableEq

/-- Modelled from the spec: the grab operation.  It accepts a Pack reference
as surfaced by search, appends a fresh DownloadJob in state Queued on its
first attempt, and returns at once with the new job's identifier; no
connection or transfer work happens inside grab. -/
def grab (st : QueueState) (p : Pack) : QueueState × Nat :=
  let job : DownloadJob :=
    { jobId := st.nextJobId
      pack := p
      state := .Queued
      bytesReceived := 0
      bytesTotal := p.sizeBytes
      attempt := 1
      lastError := none }
  (⟨st.jobs ++ [job], st.nextJobId + 1⟩, st.nextJobId)

/-- Modelled from the spec: one step of the job state machine, for a given
retry budget.  Queued jobs are picked up and connect; a connected session
awaits the DCC offer; the transfer streams bytes, only ever increasing the
received counter up to the advertised total; completion requires the
received count to equal the total; any of the connecting, waiting or
transferring steps can fail with an IRC- or DCC-layer error; a failed job
retries back to Queued while its attempt count is below the budget and is
abandoned once the budget is exhausted.  Retrying does not touch the byte
counters, which only the transfer mutates. -/
inductive JobStep (budget : Nat) : DownloadJob → DownloadJob → Prop
  | connect (j : DownloadJob) (h : j.state = .Queued) :
      JobStep budget j { j with state := .Connecting }
  | awaitOffer (j : DownloadJob) (h : j.state = .Connecting) :
      JobStep budget j { j with state := .AwaitingOffer }
  | startTransfer (j : DownloadJob) (h : j.state = .AwaitingOffer) :
      JobStep budget j { j with state := .Transferring }
  | progress (j : DownloadJob) (n : Nat) (h : j.state = .Transferring)
      (hlo : j.bytesReceived ≤ n) (hhi : n ≤ j.bytesTotal) :
      JobStep budget j { j with bytesReceived := n }
  | complete (j : DownloadJob) (h : j.state = .Transferring)
      (hfull : j.bytesReceived = j.bytesTotal) :
      JobStep budget j { j with state := .Completed }
  | fail (j : DownloadJob) (e : QueueError)
      (h : j.state = .Connecting ∨ j.state = .AwaitingOffer ∨
        j.state = .Transferring) :
      JobStep budget j { j with state := .Failed, lastError := some e }
  | retry (j : DownloadJob) (h : j.state = .Failed) (hb : j.attempt < budget) :
      JobStep budget j { j with state := .Queued, attempt := j.attempt + 1 }
  | abandon (j : DownloadJob) (h : j.state = .Failed) (hb : budget ≤ j.attempt) :
      JobStep budget j { j with state := .Abandoned }

/-- The transitions listed in the spec's state machine, as (source, target)
state pairs. -/
def allowedTransitions : List (JobState × JobState) :=
  [(.Queued, .Connecting), (.Connecting, .AwaitingOffer),
   (.AwaitingOffer, .Transferring), (.Transferring, .Completed),
   (.Connecting, .Failed), (.AwaitingOffer, .Failed),
   (.Transferring, .Failed), (.Failed, .Queued), (.Failed, .Abandoned)]

/-! ## DCC transfer completion (modelled from the spec) -/

/-- Modelled from the spec: a parsed CTCP DCC SEND offer. -/
structure DCCOffer where
  host : String
  port : Nat
  filename : String
  sizeBytes : Nat
deriving DecidableEq

/-- Modelled from the spec: the final result of a DCC transfer. -/
inductive TransferOutcome
  | Completed
  | Failed (e : QueueError)
deriving DecidableEq

/-- Modelled from the spec: the completion check of the DCC transfer.  When
the data connection completes or closes, the received byte count is verified
against the size advertised in the offer; a mismatch is a Failed outcome
(truncated transfer), never silently accepted. -/
def finishTransfer (offer : DCCOffer) (bytesReceived : Nat) : TransferOutcome :=
  if bytesReceived = offer.sizeBytes then .Completed
  else .Failed .SizeMismatch

/-! ## Theorems for the queue-layer claims -/

/-- One step never pushes the attempt counter past the budget. -/
theorem attempt_le_of_step (budget : Nat) (j j' : DownloadJob)
    (h : JobStep budget j j') (hj : j.attempt ≤ budget) :
    j'.attempt ≤ budget := by
  cases h <;> simp_all
  all_goals omega

/-- C2: for every DownloadJob and every retry sequence it undergoes, the
attempt counter never exceeds the configured retry budget, and when the job
stops being retried — no machine step applies any more — its final state is
either Completed or Abandoned, never a lingering Failed, Queued or
in-progress state. -/
theorem retry_budget_bound_and_terminal (budget : Nat) (j0 j : DownloadJob)
    (h0 : j0.attempt ≤ budget)
    (hr : Relation.ReflTransGen (JobStep budget) j0 j) :
    j.attempt ≤ budget ∧
    ((∀ j', ¬ JobStep budget j j') →
      j.state = .Completed ∨ j.state = .Abandoned) := by
  constructor
  · induction hr with
    | refl => exact h0
    | tail _ hstep ih => exact attempt_le_of_step _ _ _ hstep ih
  · intro hterm
    cases hstate : j.state with
    | Queued => exact absurd (JobStep.connect j hstate) (hterm _)
    | Connecting => exact absurd (JobStep.awaitOffer j hstate) (hterm _)
    | AwaitingOffer => exact absurd (JobStep.startTransfer j hstate) (hterm _)
    | Transferring =>
      exact absurd (JobStep.fail j .TransferStalled (Or.inr (Or.inr hstate)))
        (hterm _)
    | Failed =>
      by_cases hb : j.attempt < budget
      · exact absurd (JobStep.retry j hstate hb) (hterm _)
      · exact absurd (JobStep.abandon j hstate (Nat.le_of_not_lt hb)) (hterm _)
    | Completed => exact Or.inl rfl
    | Abandoned => exact Or.inr rfl

/-- A sample grabbed job: fresh from grab, first attempt, nothing received,
with a zero-byte advertised size so the sample trace can complete. -/
def jobQ : DownloadJob :=
  { jobId := 0
    pack := packA
    state := .Queued
    bytesReceived := 0
    bytesTotal := 0
    attempt := 1
    lastError := none }

/-- The sample job once connecting. -/
def jobC : DownloadJob := { jobQ with state := .Connecting }

/-- The sample job once awaiting the DCC offer. -/
def jobA : DownloadJob := { jobQ with state := .AwaitingOffer }

/-- The sample job once transferring. -/
def jobT : DownloadJob := { jobQ with state := .Transferring }

/-- The sample job once completed. -/
def jobDone : DownloadJob := { jobQ with state := .Completed }

/-- A sample run of the machine from Queued to Completed under budget 3. -/
theorem sampleTrace : Relation.ReflTransGen (JobStep 3) jobQ jobDone := by
  have s1 : JobStep 3 jobQ jobC := JobStep.connect jobQ rfl
  have s2 : JobStep 3 jobC jobA := JobStep.awaitOffer jobC rfl
  have s3 : JobStep 3 jobA jobT := JobStep.startTransfer jobA rfl
  have s4 : JobStep 3 jobT jobDone := JobStep.complete jobT rfl rfl
  exact .tail (.tail (.tail (.single s1) s2) s3) s4

/-- Witness for C2: the sample trace keeps the attempt counter within the
default budget of 3, and were the completed job stepless it is terminal. -/
theorem retry_budget_bound_and_terminal_app :
    jobDone.attempt ≤ 3 ∧
    ((∀ j', ¬ JobStep 3 jobDone j') →
      jobDone.state = .Completed ∨ jobDone.state = .Abandoned) :=
  retry_budget_bound_and_terminal 3 jobQ jobDone (by decide) sampleTrace

/-- One step never decreases the received byte counter. -/
theorem bytes_mono_of_step (budget : Nat) (j j' : DownloadJob)
    (h : JobStep budget j j') : j.bytesReceived ≤ j'.bytesReceived := by
  cases h <;> simp_all

/-- After any step, a Completed job has received exactly its total byte
count: the only entry into Completed is the completion step, which checks
it. -/
theorem completed_bytes_of_step (budget : Nat) (j j' : DownloadJob)
    (h : JobStep budget j j') :
    j'.state = .Completed → j'.bytesReceived = j'.bytesTotal := by
  cases h <;> simp_all

/-- C3: for every DownloadJob, bytesReceived is monotonically non-decreasing
across every state update, and every job in state Completed reachable from a
freshly queued job satisfies bytesReceived equal to bytesTotal. -/
theorem bytes_monotone_and_completed_full (budget : Nat) (j0 j : DownloadJob)
    (h0 : j0.state = .Queued)
    (hr : Relation.ReflTransGen (JobStep budget) j0 j) :
    (∀ j', JobStep budget j j' → j.bytesReceived ≤ j'.bytesReceived) ∧
    (j.state = .Completed → j.bytesReceived = j.bytesTotal) := by
  constructor
  · intro j' h
    exact bytes_mono_of_step _ _ _ h
  · induction hr with
    | refl =>
      intro hc
      rw [h0] at hc
      cases hc
    | tail _ hstep _ih => exact completed_bytes_of_step _ _ _ hstep

/-- Witness for C3: along the sample trace the completed job's byte counter
equals its advertised total, and any further step could only grow it. -/
theorem bytes_monotone_and_completed_full_app :
    (∀ j', JobStep 3 jobDone j' → jobDone.bytesReceived ≤ j'.bytesReceived) ∧
    (jobDone.state = .Completed → jobDone.bytesReceived = jobDone.bytesTotal) :=
  bytes_monotone_and_completed_full 3 jobQ jobDone rfl sampleTrace

/-- Counterexample for C4: the spec's state-machine names are not the
consumer-visible states; the Activity page's Download status union lacks
Connecting (and AwaitingOffer, Transferring, Abandoned), using the coarser
lowercase set instead. -/
theorem visible_status_names_differ :
    "Connecting" ∈ jobStateNames ∧ "Connecting" ∉ downloadStatusNames := by
  decide

/-- C4 (amended): every state change of a DownloadJob follows only the
transitions listed in the state machine — a step either leaves the state
unchanged (a byte-progress update) or moves along a listed edge — while the
consumer-visible status set of the Activity page is the coarser
downloading/queued/completed/failed rendering rather than the machine's own
state names. -/
theorem job_steps_within_machine (budget : Nat) (j j' : DownloadJob)
    (h : JobStep budget j j') :
    (j'.state = j.state ∨ (j.state, j'.state) ∈ allowedTransitions) ∧
    downloadStatusNames = ["downloading", "queued", "completed", "failed"] := by
  refine ⟨?_, rfl⟩
  cases h with
  | connect h => rw [h]; right; simp [allowedTransitions]
  | awaitOffer h => rw [h]; right; simp [allowedTransitions]
  | startTransfer h => rw [h]; right; simp [allowedTransitions]
  | progress n h hlo hhi => left; rfl
  | complete h hfull => rw [h]; right; simp [allowedTransitions]
  | fail e h =>
    rcases h with h | h | h <;> rw [h] <;> right <;> simp [allowedTransitions]
  | retry h hb => rw [h]; right; simp [allowedTransitions]
  | abandon h hb => rw [h]; right; simp [allowedTransitions]

/-- Witness for C4 (amended): the concrete connect step of the sample job
moves along a listed edge. -/
theorem job_steps_within_machine_app :
    (jobC.state = jobQ.state ∨ (jobQ.state, jobC.state) ∈ allowedTransitions) ∧
    downloadStatusNames = ["downloading", "queued", "completed", "failed"] :=
  job_steps_within_machine 3 jobQ jobC (JobStep.connect jobQ rfl)

/-- C5: when a DCC transfer's connection completes or closes with a received
byte count different from the sizeBytes advertised in the offer, the
transfer's outcome is Failed with SizeMismatch — a truncated payload is
never reported as a successful Completed transfer. -/
theorem size_mismatch_fails (offer : DCCOffer) (n : Nat)
    (h : n ≠ offer.sizeBytes) :
    finishTransfer offer n = .Failed .SizeMismatch ∧
    finishTransfer offer n ≠ .Completed := by
  have hf : finishTransfer offer n = .Failed .SizeMismatch := by
    unfold finishTransfer
    rw [if_neg h]
  refine ⟨hf, ?_⟩
  rw [hf]
  intro hc
  cases hc

/-- The offer of the spec's truncation scenario: 100000000 advertised
bytes. -/
def sampleOffer : DCCOffer :=
  { host := "203.0.113.5", port := 5000, filename := "example.movie.2024.mkv",
    sizeBytes := 100000000 }

/-- Witness for C5: the connection closing after 60000000 of 100000000 bytes
is a SizeMismatch failure, not Completed. -/
theorem size_mismatch_fails_app :
    finishTransfer sampleOffer 60000000 = .Failed .SizeMismatch ∧
    finishTransfer sampleOffer 60000000 ≠ .Completed :=
  size_mismatch_fails sampleOffer 60000000 (by decide)

/-- C7: the grab operation, given a Pack reference as surfaced by search,
enqueues a DownloadJob and returns with the new job's identifier.  The new
job is Queued with nothing transferred yet — grab does no download work —
and the existing jobs are untouched. -/
theorem grab_enqueues_and_returns_id (st : QueueState) (p : Pack) :
    (∃ j, j ∈ (grab st p).1.jobs ∧ j.jobId = (grab st p).2 ∧ j.pack = p ∧
      j.state = .Queued ∧ j.bytesReceived = 0 ∧ j.attempt = 1) ∧
    (∀ k, k ∈ st.jobs → k ∈ (grab st p).1.jobs) ∧
    (grab st p).1.jobs.length = st.jobs.length + 1 := by
  refine ⟨⟨{ jobId := st.nextJobId
             pack := p
             state := .Queued
             bytesReceived := 0
             bytesTotal := p.sizeBytes
             attempt := 1
             lastError := none }, ?_, rfl, rfl, rfl, rfl, rfl⟩, ?_, ?_⟩
  · simp [grab]
  · intro k hk
    simp [grab, hk]
  · simp [grab]

/-- Witness for C7: grabbing the sample pack on an empty queue yields job id
0 and a single queued job. -/
theorem grab_enqueues_and_returns_id_app :
    (∃ j, j ∈ (grab ⟨[], 0⟩ packA).1.jobs ∧ j.jobId = (grab ⟨[], 0⟩ packA).2 ∧
      j.pack = packA ∧ j.state = .Queued ∧ j.bytesReceived = 0 ∧
      j.attempt = 1) ∧
    (∀ k, k ∈ (⟨[], 0⟩ : QueueState).jobs → k ∈ (grab ⟨[], 0⟩ packA).1.jobs) ∧
    (grab ⟨[], 0⟩ packA).1.jobs.length = (⟨[], 0⟩ : QueueState).jobs.length + 1 :=
  grab_enqueues_and_returns_id ⟨[], 0⟩ packA

end XDCCarr
